import Mathlib

/-!
Shallow embedding of `src/main.py` (csv_invoice_generator).

The program is a batch pipeline: read a CSV into a dataframe, group rows by
(patient name, year-month of the service date), transform each group into a
flat record, allocate sequential invoice numbers from a persisted counter
file, and emit one artifact per group.

Modelling conventions:
* A pandas cell is a `Val`: `na` (NaN / missing), a string `s`, or an
  inferred integer `i`.  Float inference and exotic numeric formats of
  pandas are not modelled; no theorem below evaluates them.
* A dataframe row is an association list from column name to `Val`, in
  column order; the dataframe itself is the list of rows in file order.
* The filesystem is passed explicitly: the counter file is an
  `Option String` (`none` = the file does not exist), the input CSV an
  `Option CsvFile`.  Template rendering and PDF output are external
  collaborators and are not modelled; the run result records, per group,
  the output filename and the record handed to the renderer.
* Python exceptions become constructors of `PyErr`.
-/

deriving instance DecidableEq for Except

/-- A pandas cell value: NaN, a string, or an inferred integer. -/
inductive Val where
  | na : Val
  | s : String → Val
  | i : Int → Val
deriving DecidableEq, Repr

/-- A dataframe row: association list from column name to cell, in column
order (mirrors a pandas row viewed through `row[col]` / `row.get(col)`). -/
abbrev PyRow := List (String × Val)

/-- `row.get(col)` / column lookup: first entry with the given key. -/
def PyRow.get (r : PyRow) (c : String) : Option Val :=
  (r.find? (fun p => p.1 = c)).map Prod.snd

/-- `row[col]` on a frame that has the column; on a frame without it the
source raises `KeyError`, which the theorems below never exercise — the
model returns NaN there. -/
def PyRow.getD (r : PyRow) (c : String) : Val :=
  (PyRow.get r c).getD Val.na

/-- `pd.notna` on a cell: false exactly on NaN. -/
def pd_notna (v : Val) : Bool :=
  v != Val.na

/-- `pd.notna (row.get col)`: `row.get` yields `None` for a missing column
and `pd.notna(None)` is false. -/
def pd_notnaOpt (o : Option Val) : Bool :=
  match o with
  | some v => pd_notna v
  | none => false

/-- Python exceptions raised by the pipeline (`SchemaError`,
`DateFormatError`, `ParseError` of the spec map onto `KeyError`,
`ValueError` from `strptime`, and `ValueError` from `int`). -/
inductive PyErr where
  | fileNotFoundError : PyErr
  | attributeError : PyErr
  | dateFormatError : PyErr
  | parseError : PyErr
  | keyError : PyErr
deriving DecidableEq, Repr

/-- Python `str.replace(a, b)` with a one-character pattern and a
one-character replacement is exactly character-wise substitution
(occurrences are single characters, trivially non-overlapping). -/
def pyReplaceChar (a b : Char) (t : String) : String :=
  String.mk (t.data.map (fun c => if c = a then b else c))

/-- Python `str.replace(a, rep)` with a one-character pattern and a string
replacement: every occurrence of `a` is replaced by `rep`. -/
def pyReplaceCharStr (a : Char) (rep : String) (t : String) : String :=
  String.mk ((t.data.map (fun c => if c = a then rep.data else [c])).flatten)

/-- `sanitize_filename` (src/main.py:19-21):
`name.replace(" ", "_").replace("/", "-").replace("\\", "-")`. -/
def sanitize_filename (name : String) : String :=
  pyReplaceChar '\\' '-' (pyReplaceChar '/' '-' (pyReplaceChar ' ' '_' name))

/-- Zero-pad the decimal representation of a natural to width `w`
(Python `"%0wd"` on a non-negative value). -/
def zpadNat (w : Nat) (n : Nat) : String :=
  String.mk (List.replicate (w - (toString n).length) '0') ++ toString n

/-- Python `f"{n:04d}"`: minimum width 4, zero-padded, the sign (if any)
before the padding. -/
def zpad4 (n : Int) : String :=
  if n < 0 then "-" ++ zpadNat 3 n.natAbs else zpadNat 4 n.toNat

/-- The invoice-number format used at src/main.py:168: `f"INV-{n:04d}"`. -/
def formatInvoiceNumber (n : Int) : String :=
  "INV-" ++ zpad4 n

/-- Python `str.strip()` (the model strips the ASCII whitespace recognised
by `Char.isWhitespace`; the extra Unicode space classes Python also strips
are not exercised by any theorem below). -/
def pyStrip (t : String) : String :=
  String.mk (((t.data.dropWhile Char.isWhitespace).reverse.dropWhile Char.isWhitespace).reverse)

/-- Split a character list on a separator character (the behaviour of both
Python `str.split(sep)` and `str.splitOn` for a one-character separator:
`"a_b" ↦ ["a","b"]`, `"_" ↦ ["",""]`, `"" ↦ [""]`). -/
def splitOnChar (sep : Char) : List Char → List (List Char)
  | [] => [[]]
  | c :: rest =>
    match splitOnChar sep rest with
    | [] => [[]]
    | cur :: acc => if c = sep then [] :: cur :: acc else (c :: cur) :: acc

/-- The natural number denoted by a list of decimal digits. -/
def digitsToNat (l : List Char) : Nat :=
  l.foldl (fun acc c => acc * 10 + (c.toNat - 48)) 0

/-- A nonempty all-digit character list parsed as a natural number (the
acceptance behaviour of a `strptime` numeric field). -/
def charsToNat? (l : List Char) : Option Nat :=
  if l ≠ [] ∧ l.all Char.isDigit then some (digitsToNat l) else none

/-- Digits-with-underscores core of Python `int(str)`: the string split on
`'_'` must give nonempty all-digit parts (so `"1_0"` parses, `"_1"`,
`"1__0"`, `""` do not). -/
def pyIntCore (l : List Char) : Option Nat :=
  let parts := splitOnChar '_' l
  if parts.all (fun p => decide (p ≠ []) && p.all Char.isDigit) then
    some (digitsToNat parts.flatten)
  else
    none

/-- Python `int(str)` on an already-stripped string: optional sign followed
by digits (non-ASCII digit forms are not modelled). -/
def pyInt (t : String) : Option Int :=
  match t.data with
  | [] => none
  | c :: rest =>
    if c = '-' then (pyIntCore rest).map (fun n => -(n : Int))
    else if c = '+' then (pyIntCore rest).map (fun n => (n : Int))
    else (pyIntCore (c :: rest)).map (fun n => (n : Int))

/-- `get_next_invoice_number` (src/main.py:24-31): return 1 when the
counter file does not exist, else `int(f.read().strip())`; an unparseable
content raises `ValueError` (the spec's ParseError). -/
def get_next_invoice_number (counterFile : Option String) : Except PyErr Int :=
  match counterFile with
  | none => Except.ok 1
  | some content =>
    match pyInt (pyStrip content) with
    | some n => Except.ok n
    | none => Except.error PyErr.parseError

/-- The raw input CSV: a header row and data rows of raw textual cells
(one cell per header column; ragged files are not exercised by any
theorem below). -/
structure CsvFile where
  header : List String
  rows : List (List String)
deriving DecidableEq, Repr

/-- The `dtype_spec` of `read_invoice` (src/main.py:43-49): columns pinned
to `str` so that leading zeros survive. -/
def dtype_spec : List String :=
  ["Cell number", "Next of kin cellphone number",
   "Second next of kin cellphone number", "Medical aid number", "P. Code"]

/-- Default pandas type inference for one cell: an empty field is NaN, an
all-digit (optionally signed) field becomes an integer, anything else
stays a string.  (Float inference is not modelled; no theorem evaluates a
float-shaped cell.) -/
def inferCell (raw : String) : Val :=
  match pyInt raw with
  | some n => Val.i n
  | none => Val.s raw

/-- How `pd.read_csv(path, dtype=dtype_spec)` types one cell: empty cells
are NaN in every column (also in the `dtype=str` ones); cells of a
`dtype_spec` column are kept as raw text; other cells go through type
inference. -/
def cellOf (col : String) (raw : String) : Val :=
  if raw = "" then Val.na
  else if col ∈ dtype_spec then Val.s raw
  else inferCell raw

/-- `read_invoice` (src/main.py:41-51): `pd.read_csv(path, dtype=dtype_spec)`.
Raises `FileNotFoundError` when the path does not exist; otherwise returns
the rows in file order.  `read_csv` silently ignores `dtype` keys that are
not among the file's columns and performs no schema validation, so a file
missing required columns still reads successfully. -/
def read_invoice (file : Option CsvFile) : Except PyErr (List PyRow) :=
  match file with
  | none => Except.error PyErr.fileNotFoundError
  | some f =>
    Except.ok (f.rows.map (fun cells =>
      (f.header.zip cells).map (fun p => (p.1, cellOf p.1 p.2))))

/-- A parsed `datetime` as far as the pipeline uses it. -/
structure PyDate where
  day : Nat
  month : Nat
  year : Nat
deriving DecidableEq, Repr

/-- `parse_date` (src/main.py:14-16): `datetime.strptime(s, "%d/%m/%Y")`.
The model checks the three slash-separated numeric fields with day in
1..31 and month in 1..12; `strptime`'s per-month day limits and its
1..9999 year bound are not modelled (no theorem evaluates those corners). -/
def parse_date (t : String) : Option PyDate :=
  match splitOnChar '/' t.data with
  | [d, m, y] =>
    match charsToNat? d, charsToNat? m, charsToNat? y with
    | some dd, some mm, some yy =>
      if 1 ≤ dd && dd ≤ 31 && 1 ≤ mm && mm ≤ 12 then
        some { day := dd, month := mm, year := yy }
      else none
    | _, _, _ => none
  | _ => none

/-- A pandas `Period("M")`: the year and month of a parsed date. -/
structure YearMonth where
  year : Nat
  month : Nat
deriving DecidableEq, Repr

/-- `str(period)` for a monthly period: `"YYYY-MM"`, both parts
zero-padded. -/
def ymStr (ym : YearMonth) : String :=
  zpadNat 4 ym.year ++ "-" ++ zpadNat 2 ym.month

/-- `%B` month names used by `strftime`. -/
def monthName (m : Nat) : String :=
  match m with
  | 1 => "January" | 2 => "February" | 3 => "March" | 4 => "April"
  | 5 => "May" | 6 => "June" | 7 => "July" | 8 => "August"
  | 9 => "September" | 10 => "October" | 11 => "November" | 12 => "December"
  | _ => ""

/-- `year_month.strftime("%B %Y")` (src/main.py:96). -/
def periodLabel (ym : YearMonth) : String :=
  monthName ym.month ++ " " ++ zpadNat 4 ym.year

/-- A grouping key: (the `Patient name` cell, the year-month period). -/
abbrev GroupKey := Val × YearMonth

/-- Compute one row's grouping key (the `df['Date'].apply(parse_date)` and
`.dt.to_period('M')` steps of src/main.py:57-58, per row): a `Date` cell
that is not a string raises in `strptime`, an unparseable one raises
`ValueError` (the spec's DateFormatError), a missing `Date` column raises
`KeyError`. -/
def keyedRow (r : PyRow) : Except PyErr (GroupKey × PyRow) :=
  match PyRow.get r "Date" with
  | some (Val.s d) =>
    match parse_date d with
    | some dt => Except.ok ((PyRow.getD r "Patient name", ⟨dt.year, dt.month⟩), r)
    | none => Except.error PyErr.dateFormatError
  | some _ => Except.error PyErr.dateFormatError
  | none => Except.error PyErr.keyError

/-- Keep the first occurrence of every element (insertion order of
first-seen key). -/
def firstSeenAux [DecidableEq α] (acc : List α) : List α → List α
  | [] => acc
  | a :: l => firstSeenAux (if a ∈ acc then acc else acc ++ [a]) l

/-- The distinct elements of a list, in first-seen order. -/
def firstSeen [DecidableEq α] (l : List α) : List α :=
  firstSeenAux [] l

/-- Strict lexicographic order on character lists by code point — the
order Python `<` puts on strings. -/
def charsLtb : List Char → List Char → Bool
  | [], [] => false
  | [], _ :: _ => true
  | _ :: _, [] => false
  | x :: xs, y :: ys => if x = y then charsLtb xs ys else decide (x < y)

/-- Strict order on key cells as pandas sorts object keys: integers before
strings numerically resp. lexicographically.  (On genuinely mixed
integer/string patient names pandas raises `TypeError`; the model instead
orders integers first — no theorem evaluates a mixed-type key set.)  NaN
keys are dropped by `groupby` before sorting. -/
def valLT : Val → Val → Prop
  | Val.i a, Val.i b => a < b
  | Val.i _, Val.s _ => True
  | Val.i _, Val.na => True
  | Val.s a, Val.s b => charsLtb a.data b.data = true
  | Val.s _, Val.i _ => False
  | Val.s _, Val.na => True
  | Val.na, _ => False

instance : DecidableRel valLT := fun v w =>
  match v, w with
  | Val.i a, Val.i b => inferInstanceAs (Decidable (a < b))
  | Val.i _, Val.s _ => inferInstanceAs (Decidable True)
  | Val.i _, Val.na => inferInstanceAs (Decidable True)
  | Val.s a, Val.s b => inferInstanceAs (Decidable (charsLtb a.data b.data = true))
  | Val.s _, Val.i _ => inferInstanceAs (Decidable False)
  | Val.s _, Val.na => inferInstanceAs (Decidable True)
  | Val.na, Val.na => inferInstanceAs (Decidable False)
  | Val.na, Val.i _ => inferInstanceAs (Decidable False)
  | Val.na, Val.s _ => inferInstanceAs (Decidable False)

/-- The ascending order in which `df.groupby(['Patient name', 'year_month'])`
(with its default `sort=True`) iterates group keys: lexicographic on
(patient-name cell, year, month). -/
def keyLE (a b : GroupKey) : Prop :=
  valLT a.1 b.1 ∨
    (a.1 = b.1 ∧
      (a.2.year < b.2.year ∨ (a.2.year = b.2.year ∧ a.2.month ≤ b.2.month)))

instance : DecidableRel keyLE := fun a b =>
  inferInstanceAs (Decidable (valLT a.1 b.1 ∨ a.1 = b.1 ∧ (_ ∨ _ ∧ _)))

/-- `group_by_patient_month` (src/main.py:54-63).  `df.groupby(ks)` with
the default `sort=True` iterates the distinct non-NaN keys in ascending
order, each with the rows of that key in original file order (`dropna=True`
silently drops rows whose patient-name key is NaN).  On an empty frame the
`.dt` accessor raises `AttributeError` (the `apply` result is an empty
object-dtype series), so the empty case errors before grouping. -/
def group_by_patient_month (df : List PyRow) :
    Except PyErr (List (GroupKey × List PyRow)) :=
  if df.isEmpty then Except.error PyErr.attributeError
  else
    match df.mapM keyedRow with
    | Except.error e => Except.error e
    | Except.ok keyed0 =>
      let keyed := keyed0.filter (fun p => pd_notna p.1.1)
      let ks := List.insertionSort keyLE (firstSeen (keyed.map Prod.fst))
      Except.ok (ks.map (fun k =>
        (k, (keyed.filter (fun p => p.1 = k)).map Prod.snd)))

/-- One entry of `line_items` (src/main.py:100-104). -/
structure LineItem where
  date : Val
  p_code : Val
  icd_code : Val
deriving DecidableEq, Repr

/-- The dict built by `transform_group_to_invoice_data`.  The scalar
entries are kept as the association list `fields` in insertion order (a
Python dict preserves it); the `line_items` entry, whose value is a list
rather than a cell, is modelled as the separate field `line_items`. -/
structure InvoiceData where
  fields : List (String × Val)
  line_items : List LineItem
deriving DecidableEq, Repr

/-- `first_row['Patient address'].replace('\n', '<br>')` (src/main.py:72).
On a NaN address the source raises `AttributeError`; the model leaves the
cell unchanged there (no theorem evaluates a NaN address). -/
def addressVal (v : Val) : Val :=
  match v with
  | Val.s a => Val.s (pyReplaceCharStr '\n' "<br>" a)
  | w => w

/-- The line item built from one row (src/main.py:100-104): the `Date`
cell verbatim, and the `P. Code` / `ICD Code` cells, each replaced by the
empty string when NaN. -/
def lineItemOf (row : PyRow) : LineItem :=
  { date := PyRow.getD row "Date"
  , p_code := if pd_notna (PyRow.getD row "P. Code") then PyRow.getD row "P. Code" else Val.s ""
  , icd_code := if pd_notna (PyRow.getD row "ICD Code") then PyRow.getD row "ICD Code" else Val.s "" }

/-- The body of `transform_group_to_invoice_data` (src/main.py:66-108)
once `first_row = group_df.iloc[0]` has been taken.  `now_str` is the
`datetime.now().strftime("%d %B %Y")` wall-clock string, passed explicitly
to keep the function pure. -/
def buildInvoiceData (first : PyRow) (group_df : List PyRow)
    (invoice_number : String) (ym : YearMonth) (now_str : String) : InvoiceData :=
  { fields :=
      [ ("patient_name", PyRow.getD first "Patient name")
      , ("patient_address", addressVal (PyRow.getD first "Patient address"))
      , ("patient_cell", PyRow.getD first "Cell number")
      , ("patient_email", PyRow.getD first "Email") ]
      ++ (if pd_notna (PyRow.getD first "Medical aid name") then
            [ ("medical_aid_name", PyRow.getD first "Medical aid name")
            , ("medical_aid_number", PyRow.getD first "Medical aid number") ]
          else [])
      ++ (if pd_notna (PyRow.getD first "Next of kin name") then
            [ ("next_of_kin_name", PyRow.getD first "Next of kin name")
            , ("next_of_kin_cell", PyRow.getD first "Next of kin cellphone number") ]
            ++ (if pd_notnaOpt (PyRow.get first "Next of kin email") then
                  [ ("next_of_kin_email", PyRow.getD first "Next of kin email") ]
                else [])
          else [])
      ++ (if pd_notna (PyRow.getD first "Second next of kin name") then
            [ ("second_next_of_kin_name", PyRow.getD first "Second next of kin name")
            , ("second_next_of_kin_cell", PyRow.getD first "Second next of kin cellphone number") ]
            ++ (if pd_notnaOpt (PyRow.get first "Second next of kin email") then
                  [ ("second_next_of_kin_email", PyRow.getD first "Second next of kin email") ]
                else [])
          else [])
      ++ [ ("invoice_number", Val.s invoice_number)
         , ("invoice_date", Val.s now_str)
         , ("period", Val.s (periodLabel ym)) ]
  , line_items := group_df.map lineItemOf }

/-- `transform_group_to_invoice_data` (src/main.py:66-108): `iloc[0]` on
an empty group raises (`none`); `groupby` never yields an empty group. -/
def transform_group_to_invoice_data (group_df : List PyRow)
    (invoice_number : String) (ym : YearMonth) (now_str : String) :
    Option InvoiceData :=
  match group_df with
  | [] => none
  | first :: _ => some (buildInvoiceData first group_df invoice_number ym now_str)

/-- Python `str()` of a key cell, as interpolated into the output
filename. -/
def valStr (v : Val) : String :=
  match v with
  | Val.na => "nan"
  | Val.s a => a
  | Val.i n => toString n

/-- The output filename built at src/main.py:174-176:
`f"invoice_{sanitize_filename(patient_name)}_{str(year_month).replace('-', '_')}.pdf"`. -/
def output_filename (patient_name : String) (ym : YearMonth) : String :=
  "invoice_" ++ sanitize_filename patient_name ++ "_"
    ++ pyReplaceChar '-' '_' (ymStr ym) ++ ".pdf"

/-- The per-group loop of `generate_invoices_from_csv`
(src/main.py:166-182): the mutable `current_invoice_num` is the `Int`
argument, incremented once per group; each group contributes the pair of
its output filename and the record handed to the renderer. -/
def processGroups (now_str : String) :
    Int → List (GroupKey × List PyRow) → List (String × Option InvoiceData)
  | _, [] => []
  | v, (k, g) :: rest =>
    (output_filename (valStr k.1) k.2,
      transform_group_to_invoice_data g (formatInvoiceNumber v) k.2 now_str)
      :: processGroups now_str (v + 1) rest

/-- Python truthiness of the `month_filter` argument: `None` and `""` are
falsy. -/
def monthFilterTruthy (mf : Option String) : Bool :=
  match mf with
  | none => false
  | some m => m != ""

/-- The group list after the optional month filter (src/main.py:151-152):
when the filter is truthy, keep the groups whose `str(key[1])` equals it;
otherwise keep all groups. -/
def monthFilteredGroups (mf : Option String)
    (gs : List (GroupKey × List PyRow)) : List (GroupKey × List PyRow) :=
  if monthFilterTruthy mf then gs.filter (fun g => some (ymStr g.1.2) = mf)
  else gs

/-- The observable outcome of one `generate_invoices_from_csv` run:
the final counter-file content, whether `save_invoice_number` ran,
the emitted (filename, record) pairs in emission order, and the exception
(if any) that terminated the run. -/
structure RunOutcome where
  counterFile : Option String
  counterWritten : Bool
  invoices : List (String × Option InvoiceData)
  error : Option PyErr
deriving DecidableEq, Repr

/-- `generate_invoices_from_csv` (src/main.py:131-185).  The counter file
is the explicit state `counterFile`; `save_invoice_number`
(src/main.py:34-38) overwrites it with `str(number)` and is reached only
at the very end of a successful, non-early-returning run.  Template
loading and PDF rendering are external and assumed to succeed. -/
def generate_invoices_from_csv (counterFile : Option String)
    (csv : Option CsvFile) (month_filter : Option String) (now_str : String) :
    RunOutcome :=
  match read_invoice csv with
  | Except.error e => ⟨counterFile, false, [], some e⟩
  | Except.ok df =>
    match group_by_patient_month df with
    | Except.error e => ⟨counterFile, false, [], some e⟩
    | Except.ok groups0 =>
      if monthFilterTruthy month_filter
          && (monthFilteredGroups month_filter groups0).isEmpty then
        ⟨counterFile, false, [], none⟩
      else
        match get_next_invoice_number counterFile with
        | Except.error e => ⟨counterFile, false, [], some e⟩
        | Except.ok v =>
          ⟨some (toString (v + (monthFilteredGroups month_filter groups0).length)),
            true, processGroups now_str v (monthFilteredGroups month_filter groups0),
            none⟩

/-! Order instances for the group-key relation (pandas iterates group keys
in an order that is total and transitive; these instances let the sorted
characterisation below go through `List.insertionSort`). -/

instance : IsTotal GroupKey keyLE where
  total := by
    have htri : ∀ a b : List Char, charsLtb a b = true ∨ a = b ∨ charsLtb b a = true := by
      intro a
      induction a with
      | nil => intro b; cases b <;> simp [charsLtb]
      | cons x xs ih =>
        intro b
        cases b with
        | nil => simp [charsLtb]
        | cons y ys =>
          by_cases hxy : x = y
          · subst hxy
            rcases ih ys with h | h | h
            · refine Or.inl ?_
              simp only [charsLtb, if_pos rfl]
              exact h
            · exact Or.inr (Or.inl (by rw [h]))
            · refine Or.inr (Or.inr ?_)
              simp only [charsLtb, if_pos rfl]
              exact h
          · rcases lt_trichotomy x y with h | h | h
            · refine Or.inl ?_
              simp only [charsLtb]
              rw [if_neg hxy]
              exact decide_eq_true h
            · exact absurd h hxy
            · refine Or.inr (Or.inr ?_)
              simp only [charsLtb]
              rw [if_neg (fun e => hxy (Eq.symm e))]
              exact decide_eq_true h
    have hv : ∀ v w : Val, valLT v w ∨ v = w ∨ valLT w v := by
      intro v w
      cases v with
      | na => cases w <;> simp [valLT]
      | s a =>
        cases w with
        | na => simp [valLT]
        | i b => simp [valLT]
        | s b =>
          rcases htri a.data b.data with h | h | h
          · exact Or.inl h
          · refine Or.inr (Or.inl ?_)
            rcases a with ⟨d⟩
            rcases b with ⟨e⟩
            simp only at h
            exact congrArg Val.s (congrArg String.mk h)
          · exact Or.inr (Or.inr h)
      | i a =>
        cases w with
        | na => simp [valLT]
        | s b => simp [valLT]
        | i b =>
          rcases lt_trichotomy a b with h | h | h
          · exact Or.inl h
          · exact Or.inr (Or.inl (congrArg Val.i h))
          · exact Or.inr (Or.inr h)
    intro a b
    rcases hv a.1 b.1 with h | h | h
    · exact Or.inl (Or.inl h)
    · rcases Nat.lt_trichotomy a.2.year b.2.year with hy | hy | hy
      · exact Or.inl (Or.inr ⟨h, Or.inl hy⟩)
      · rcases Nat.le_total a.2.month b.2.month with hm | hm
        · exact Or.inl (Or.inr ⟨h, Or.inr ⟨hy, hm⟩⟩)
        · exact Or.inr (Or.inr ⟨h.symm, Or.inr ⟨hy.symm, hm⟩⟩)
      · exact Or.inr (Or.inr ⟨h.symm, Or.inl hy⟩)
    · exact Or.inr (Or.inl h)

instance : IsTrans GroupKey keyLE where
  trans := by
    have htr : ∀ a b c : List Char,
        charsLtb a b = true → charsLtb b c = true → charsLtb a c = true := by
      intro a
      induction a with
      | nil =>
        intro b c hab hbc
        cases b <;> cases c <;> simp_all [charsLtb]
      | cons x xs ih =>
        intro b c hab hbc
        cases b with
        | nil => simp [charsLtb] at hab
        | cons y ys =>
          cases c with
          | nil => simp [charsLtb] at hbc
          | cons z zs =>
            simp only [charsLtb] at hab hbc ⊢
            by_cases hxy : x = y
            · subst hxy
              rw [if_pos rfl] at hab
              by_cases hyz : x = z
              · subst hyz
                rw [if_pos rfl] at hbc ⊢
                exact ih ys zs hab hbc
              · rw [if_neg hyz] at hbc ⊢
                exact hbc
            · rw [if_neg hxy] at hab
              by_cases hyz : y = z
              · subst hyz
                rw [if_neg hxy]
                exact hab
              · rw [if_neg hyz] at hbc
                have hlt : x < z := lt_trans (of_decide_eq_true hab) (of_decide_eq_true hbc)
                rw [if_neg (ne_of_lt hlt)]
                exact decide_eq_true hlt
    have hvt : ∀ v w x : Val, valLT v w → valLT w x → valLT v x := by
      intro v w x h1 h2
      cases v <;> cases w <;> cases x <;>
        simp only [valLT] at h1 h2 ⊢ <;>
        first
        | exact h1.elim
        | exact h2.elim
        | trivial
        | exact htr _ _ _ h1 h2
        | exact lt_trans h1 h2
    intro a b c hab hbc
    rcases hab with hab | ⟨hab, hab2⟩
    · rcases hbc with hbc | ⟨hbc, _⟩
      · exact Or.inl (hvt _ _ _ hab hbc)
      · exact Or.inl (hbc ▸ hab)
    · rcases hbc with hbc | ⟨hbc, hbc2⟩
      · exact Or.inl (hab ▸ hbc)
      · refine Or.inr ⟨hab.trans hbc, ?_⟩
        rcases hab2 with hy | ⟨hy, hm⟩ <;> rcases hbc2 with hy2 | ⟨hy2, hm2⟩ <;> omega

/-! Definitions taken from the words of the spec/claims, for comparison
with the source-derived ones. -/

/-- Modelled from the claim wording (C8): in the patient name, replace
every space with an underscore and every forward slash and backslash with
a hyphen — a single character-wise pass. -/
def sanCharSpec (c : Char) : Char :=
  if c = ' ' then '_'
  else if c = '/' then '-'
  else if c = '\\' then '-'
  else c

/-- Modelled from the claim wording (C2): the same grouping as
`group_by_patient_month`, but iterating the groups in insertion order of
first-seen key instead of the sorted order pandas actually uses. -/
def group_by_first_seen (df : List PyRow) :
    Except PyErr (List (GroupKey × List PyRow)) :=
  if df.isEmpty then Except.error PyErr.attributeError
  else
    match df.mapM keyedRow with
    | Except.error e => Except.error e
    | Except.ok keyed0 =>
      let keyed := keyed0.filter (fun p => pd_notna p.1.1)
      let ks := firstSeen (keyed.map Prod.fst)
      Except.ok (ks.map (fun k =>
        (k, (keyed.filter (fun p => p.1 = k)).map Prod.snd)))

/-! Concrete inputs used by counterexamples and witnesses. -/

/-- The full header of the input CSV (spec §6). -/
def fullHeader : List String :=
  ["Date", "Patient name", "Patient address", "Cell number", "Email",
   "Medical aid name", "Medical aid number", "Next of kin name",
   "Next of kin cellphone number", "Next of kin email",
   "Second next of kin name", "Second next of kin cellphone number",
   "Second next of kin email", "P. Code", "ICD Code"]

/-- Two rows whose file order ("B" before "A") differs from the sorted key
order pandas iterates. -/
def cexRowB : PyRow := [("Date", Val.s "01/11/2025"), ("Patient name", Val.s "B")]

def cexRowA : PyRow := [("Date", Val.s "01/11/2025"), ("Patient name", Val.s "A")]

/-- The Jane Doe example rows of the claim, deliberately with the December
row first in file order. -/
def janeRowDec : PyRow := [("Date", Val.s "02/12/2025"), ("Patient name", Val.s "Jane Doe")]

def janeRowNov1 : PyRow := [("Date", Val.s "01/11/2025"), ("Patient name", Val.s "Jane Doe")]

def janeRowNov2 : PyRow := [("Date", Val.s "15/11/2025"), ("Patient name", Val.s "Jane Doe")]

/-- The groups the code produces for the Jane Doe rows: November first
(sorted order), its two line-item rows in file order, then December. -/
def janeGroups : List (GroupKey × List PyRow) :=
  [((Val.s "Jane Doe", ⟨2025, 11⟩), [janeRowNov1, janeRowNov2]),
   ((Val.s "Jane Doe", ⟨2025, 12⟩), [janeRowDec])]

/-- A three-group November CSV over the full header (used with a counter
file containing 7). -/
def csvThree : CsvFile :=
  { header := fullHeader,
    rows := [["01/11/2025", "Alice", "1 Road", "0821", "a@x", "Aid", "007",
              "Bob", "0999", "", "", "", "", "0012", "A09"],
             ["02/11/2025", "Beth", "2 Road", "0822", "b@x", "", "", "", "",
              "", "", "", "", "", ""],
             ["03/11/2025", "Carol", "3 Road", "0823", "c@x", "", "", "", "",
              "", "", "", "", "", ""]] }

/-- A CSV whose only row has an empty `Patient name` cell: `groupby`
drops it (NaN key), so a filterless run emits zero invoices yet still
reaches `save_invoice_number`. -/
def csvNoName : CsvFile :=
  { header := ["Date", "Patient name"], rows := [["01/11/2025", ""]] }

/-- A CSV that lacks the required `Date` column (and most others). -/
def csvNoDate : CsvFile :=
  { header := ["Patient name", "P. Code"], rows := [["Jane Doe", "0012"]] }

/-- A first row whose medical-aid name is present but whose medical-aid
number is NaN, and whose next-of-kin email is present while the
next-of-kin name is NaN. -/
def rowMedNoKin : PyRow :=
  [("Date", Val.s "01/11/2025"), ("Patient name", Val.s "Alice"),
   ("Patient address", Val.s "1 Road"), ("Cell number", Val.s "0821"),
   ("Email", Val.s "a@x"),
   ("Medical aid name", Val.s "Aid"), ("Medical aid number", Val.na),
   ("Next of kin name", Val.na), ("Next of kin cellphone number", Val.s "0999"),
   ("Next of kin email", Val.s "kin@x"),
   ("Second next of kin name", Val.na),
   ("Second next of kin cellphone number", Val.na),
   ("Second next of kin email", Val.na),
   ("P. Code", Val.s "0012"), ("ICD Code", Val.s "A09")]

/-! Theorems. -/

/-- `sanitize_filename`'s three sequential single-character `str.replace`
passes coincide with the single character-wise substitution described by
the spec. -/
theorem sanitize_filename_eq_map (name : String) :
    sanitize_filename name = String.mk (name.data.map sanCharSpec) := by
  rcases name with ⟨d⟩
  show String.mk _ = _
  simp only [sanitize_filename, pyReplaceChar, List.map_map]
  refine congrArg String.mk (List.map_congr_left ?_)
  intro c _
  simp only [Function.comp]
  by_cases h1 : c = ' '
  · subst h1; decide
  · by_cases h2 : c = '/'
    · subst h2; decide
    · by_cases h3 : c = '\\'
      · subst h3; decide
      · simp [sanCharSpec, h1, h2, h3]

/-- `sanCharSpec` is idempotent and never outputs a space, slash or
backslash. -/
theorem sanCharSpec_idem (c : Char) :
    sanCharSpec (sanCharSpec c) = sanCharSpec c
      ∧ ¬(sanCharSpec c = ' ' ∨ sanCharSpec c = '/' ∨ sanCharSpec c = '\\') := by
  by_cases h1 : c = ' '
  · subst h1; decide
  · by_cases h2 : c = '/'
    · subst h2; decide
    · by_cases h3 : c = '\\'
      · subst h3; decide
      · constructor
        · simp [sanCharSpec, h1, h2, h3]
        · simp [sanCharSpec, h1, h2, h3]

/-- C9: filename sanitization is idempotent — the output of
`sanitize_filename` never contains a space, a forward slash or a
backslash, so applying it twice equals applying it once. -/
theorem C9_sanitize_filename_idempotent (t : String) :
    sanitize_filename (sanitize_filename t) = sanitize_filename t
      ∧ ∀ c ∈ (sanitize_filename t).data,
          ¬(c = ' ' ∨ c = '/' ∨ c = '\\') := by
  constructor
  · rw [sanitize_filename_eq_map, sanitize_filename_eq_map]
    show String.mk _ = _
    refine congrArg String.mk ?_
    rw [List.map_map]
    refine List.map_congr_left ?_
    intro c _
    exact (sanCharSpec_idem c).1
  · intro c hc
    rw [sanitize_filename_eq_map] at hc
    simp only [List.mem_map] at hc
    obtain ⟨c0, _, rfl⟩ := hc
    exact (sanCharSpec_idem c0).2

/-- C8: the output filename is `invoice_<name>_<ym>.pdf` where the name
component replaces every space with an underscore and every slash and
backslash with a hyphen, and the year-month component replaces the hyphen
of `YYYY-MM` with an underscore; in particular "Jane/Doe O'Brien" yields
the component `Jane-Doe_O'Brien`. -/
theorem C8_output_filename_sanitization (name : String) (ym : YearMonth) :
    output_filename name ym
        = "invoice_" ++ String.mk (name.data.map sanCharSpec) ++ "_"
          ++ String.mk ((ymStr ym).data.map (fun c => if c = '-' then '_' else c))
          ++ ".pdf"
      ∧ sanitize_filename "Jane/Doe O\x27Brien" = "Jane-Doe_O\x27Brien" := by
  refine ⟨?_, by decide⟩
  rw [output_filename, sanitize_filename_eq_map]
  rfl

/-- C5 counterexample: the claim's "returns 1 if and only if no counter
file exists" fails on a counter file that stores `1` — the file exists and
`get_next` still returns 1. -/
theorem C5_counterexample :
    ¬(get_next_invoice_number (some "1") = Except.ok 1
        ↔ (some "1" : Option String) = none) := by
  intro h
  exact Option.noConfusion (h.mp rfl)

/-- C5 (amended): `get_next` returns 1 when no counter file exists; when
the file exists and its stripped content parses as an integer it returns
that stored value (which may itself be 1); when the content does not parse
it fails with the ParseError — never a silent fallback to 1. -/
theorem C5_get_next_amended (cf : Option String) :
    (cf = none → get_next_invoice_number cf = Except.ok 1)
      ∧ (∀ content n, cf = some content → pyInt (pyStrip content) = some n →
          get_next_invoice_number cf = Except.ok n)
      ∧ (∀ content, cf = some content → pyInt (pyStrip content) = none →
          get_next_invoice_number cf = Except.error PyErr.parseError) := by
  refine ⟨?_, ?_, ?_⟩
  · rintro rfl; rfl
  · rintro content n rfl hp
    simp [get_next_invoice_number, hp]
  · rintro content rfl hp
    simp [get_next_invoice_number, hp]

/-- C5 witness: a counter file holding `"abc"` is unparseable and
`get_next` fails with ParseError. -/
theorem C5_witness :
    pyInt (pyStrip "abc") = none
      ∧ get_next_invoice_number (some "abc") = Except.error PyErr.parseError :=
  ⟨by decide, (C5_get_next_amended (some "abc")).2.2 "abc" rfl (by decide)⟩

/-- Membership in `firstSeenAux`. -/
theorem mem_firstSeenAux [DecidableEq α] (l : List α) :
    ∀ (acc : List α) (x : α), x ∈ firstSeenAux acc l ↔ x ∈ acc ∨ x ∈ l := by
  induction l with
  | nil => intro acc x; simp [firstSeenAux]
  | cons a t ih =>
    intro acc x
    simp only [firstSeenAux]
    rw [ih]
    by_cases h : a ∈ acc
    · rw [if_pos h]
      constructor
      · rintro (hx | hx)
        · exact Or.inl hx
        · exact Or.inr (List.mem_cons_of_mem _ hx)
      · rintro (hx | hx)
        · exact Or.inl hx
        · rcases List.mem_cons.mp hx with rfl | hx
          · exact Or.inl h
          · exact Or.inr hx
    · rw [if_neg h]
      simp only [List.mem_append, List.mem_singleton, List.mem_cons]
      tauto

/-- Membership in `firstSeen`. -/
theorem mem_firstSeen [DecidableEq α] {l : List α} {x : α} :
    x ∈ firstSeen l ↔ x ∈ l := by
  rw [firstSeen, mem_firstSeenAux]
  simp

/-- `firstSeenAux` preserves freedom from duplicates. -/
theorem nodup_firstSeenAux [DecidableEq α] (l : List α) :
    ∀ acc : List α, acc.Nodup → (firstSeenAux acc l).Nodup := by
  induction l with
  | nil => intro acc h; exact h
  | cons a t ih =>
    intro acc h
    simp only [firstSeenAux]
    by_cases ha : a ∈ acc
    · rw [if_pos ha]; exact ih acc h
    · rw [if_neg ha]
      refine ih _ ?_
      simp [List.nodup_append, h, ha]

/-- The distinct-keys list has no duplicates. -/
theorem nodup_firstSeen [DecidableEq α] (l : List α) : (firstSeen l).Nodup :=
  nodup_firstSeenAux l [] List.nodup_nil

/-- A successful `keyedRow` returns its own row as second component. -/
theorem keyedRow_snd {r : PyRow} {p : GroupKey × PyRow}
    (h : keyedRow r = Except.ok p) : p.2 = r := by
  unfold keyedRow at h
  split at h
  · split at h
    · injection h with h
      rw [← h]
    · exact Except.noConfusion h
  · exact Except.noConfusion h
  · exact Except.noConfusion h

/-- `mapM keyedRow` keeps the rows themselves (in order) as the second
components of its output. -/
theorem mapM_keyedRow_snd :
    ∀ (df : List PyRow) (keyed : List (GroupKey × PyRow)),
      df.mapM keyedRow = Except.ok keyed → keyed.map Prod.snd = df := by
  intro df
  induction df with
  | nil =>
    intro keyed h
    simp only [List.mapM_nil, pure, Except.pure] at h
    injection h with h
    rw [← h]
    rfl
  | cons a t ih =>
    intro keyed h
    rw [List.mapM_cons] at h
    cases ha : keyedRow a with
    | error e => rw [ha] at h; exact Except.noConfusion h
    | ok p =>
      rw [ha] at h
      cases ht : t.mapM keyedRow with
      | error e =>
        rw [ht] at h
        exact Except.noConfusion h
      | ok ks =>
        rw [ht] at h
        simp only [bind, Except.bind, pure, Except.pure] at h
        injection h with h
        rw [← h]
        simp only [List.map_cons]
        rw [keyedRow_snd ha, ih ks ht]

/-- Structure of a successful `group_by_patient_month` run. -/
theorem group_by_eq (df : List PyRow) (gs : List (GroupKey × List PyRow))
    (h : group_by_patient_month df = Except.ok gs) :
    ∃ keyed0, df.mapM keyedRow = Except.ok keyed0 ∧
      gs = (List.insertionSort keyLE
              (firstSeen ((keyed0.filter (fun p => pd_notna p.1.1)).map Prod.fst))).map
        (fun k => (k, ((keyed0.filter (fun p => pd_notna p.1.1)).filter
                         (fun p => p.1 = k)).map Prod.snd)) := by
  unfold group_by_patient_month at h
  split at h
  · exact Except.noConfusion h
  · cases hm : df.mapM keyedRow with
    | error e => rw [hm] at h; exact Except.noConfusion h
    | ok keyed0 =>
      rw [hm] at h
      injection h with h
      exact ⟨keyed0, rfl, h.symm⟩

/-- Every group a successful `group_by_patient_month` yields is nonempty,
and its rows appear in source order (it is a sublist of the dataframe). -/
theorem group_by_group_rows (df : List PyRow) (gs : List (GroupKey × List PyRow))
    (h : group_by_patient_month df = Except.ok gs) :
    ∀ g ∈ gs, g.2 ≠ [] ∧ g.2.Sublist df := by
  obtain ⟨keyed0, hm, rfl⟩ := group_by_eq df gs h
  intro g hg
  rw [List.mem_map] at hg
  obtain ⟨k, hk, rfl⟩ := hg
  constructor
  · rw [List.mem_insertionSort, mem_firstSeen, List.mem_map] at hk
    obtain ⟨p, hp, hpk⟩ := hk
    have hpf : p ∈ (keyed0.filter (fun p => pd_notna p.1.1)).filter
        (fun p => p.1 = k) := by
      rw [List.mem_filter]
      exact ⟨hp, by simp [hpk]⟩
    exact List.ne_nil_of_mem (List.mem_map_of_mem Prod.snd hpf)
  · have h1 : List.Sublist
        (((keyed0.filter (fun p => pd_notna p.1.1)).filter
            (fun p => p.1 = k)).map Prod.snd)
        ((keyed0.filter (fun p => pd_notna p.1.1)).map Prod.snd) :=
      (List.filter_sublist _).map Prod.snd
    have h2 : List.Sublist
        ((keyed0.filter (fun p => pd_notna p.1.1)).map Prod.snd)
        (keyed0.map Prod.snd) :=
      (List.filter_sublist _).map Prod.snd
    have h3 := mapM_keyedRow_snd df keyed0 hm
    exact h3 ▸ h1.trans h2

/-- C2 counterexample: with rows for patients "B" then "A" (same month),
the code's grouping disagrees with grouping in insertion order of
first-seen key — pandas `groupby` iterates keys in sorted order, so "A"
comes first although "B" was seen first. -/
theorem C2_counterexample :
    group_by_patient_month [cexRowB, cexRowA]
      ≠ group_by_first_seen [cexRowB, cexRowA] := by
  decide

/-- C2 (amended): `group_by_patient_month` yields the groups in ascending
sorted order of the (patient name, year-month) key (not first-seen order);
the keys are pairwise distinct, every group is nonempty, and within each
group the rows appear in their original source order.  The Jane Doe
example still yields exactly two groups — November with its 2 line-item
rows in file order, then December with 1 — regardless of file order. -/
theorem C2_grouping_amended (df : List PyRow) (gs : List (GroupKey × List PyRow))
    (h : group_by_patient_month df = Except.ok gs) :
    List.Sorted keyLE (gs.map Prod.fst)
      ∧ (gs.map Prod.fst).Nodup
      ∧ (∀ g ∈ gs, g.2 ≠ [] ∧ g.2.Sublist df) := by
  refine ⟨?_, ?_, group_by_group_rows df gs h⟩
  all_goals obtain ⟨keyed0, hm, rfl⟩ := group_by_eq df gs h
  all_goals rw [List.map_map]
  all_goals have hfst : (Prod.fst ∘ fun k : GroupKey =>
      (k, ((keyed0.filter (fun p => pd_notna p.1.1)).filter
              (fun p => p.1 = k)).map Prod.snd)) = id := rfl
  all_goals rw [hfst, List.map_id]
  · exact List.sorted_insertionSort keyLE _
  · exact (List.perm_insertionSort keyLE _).nodup_iff.mpr (nodup_firstSeen _)

/-- C2 witness: the concrete Jane Doe rows, with the December row first in
the file, group into November (2 rows, file order) then December (1 row);
the amended ordering properties hold there. -/
theorem C2_witness :
    group_by_patient_month [janeRowDec, janeRowNov1, janeRowNov2]
        = Except.ok janeGroups
      ∧ (List.Sorted keyLE (janeGroups.map Prod.fst)
          ∧ (janeGroups.map Prod.fst).Nodup
          ∧ (∀ g ∈ janeGroups, g.2 ≠ []
              ∧ g.2.Sublist [janeRowDec, janeRowNov1, janeRowNov2])) :=
  ⟨by decide,
   C2_grouping_amended [janeRowDec, janeRowNov1, janeRowNov2] janeGroups (by decide)⟩

/-- Looking a key up in an empty record dict. -/
theorem PyRow.get_nil (c : String) : PyRow.get [] c = none := rfl

/-- Looking a key up in a record dict built by cons. -/
theorem PyRow.get_cons (k : String) (v : Val) (r : PyRow) (c : String) :
    PyRow.get ((k, v) :: r) c = if k = c then some v else PyRow.get r c := by
  unfold PyRow.get
  by_cases h : k = c
  · rw [List.find?_cons_of_pos _ (by simp [h])]
    simp [h]
  · rw [List.find?_cons_of_neg _ (by simp [h])]
    simp [h]

/-- Lookup distributes over concatenation: the left part wins. -/
theorem PyRow.get_append (l1 l2 : PyRow) (c : String) :
    PyRow.get (l1 ++ l2) c = (PyRow.get l1 c).orElse (fun _ => PyRow.get l2 c) := by
  induction l1 with
  | nil => rfl
  | cons a t ih =>
    rcases a with ⟨k, v⟩
    rw [List.cons_append, PyRow.get_cons, PyRow.get_cons, ih]
    by_cases h : k = c <;> simp [h, Option.orElse]

/-- Lookup pushes through a conditional segment. -/
theorem PyRow.get_ite (b : Prop) [Decidable b] (l1 l2 : PyRow) (c : String) :
    PyRow.get (if b then l1 else l2) c
      = if b then PyRow.get l1 c else PyRow.get l2 c := by
  split <;> rfl

/-- The record built for a group always stores the caller-supplied
invoice-number string under `invoice_number`. -/
theorem fields_get_invoice_number (first : PyRow) (g : List PyRow) (inv : String)
    (ym : YearMonth) (now_str : String) :
    PyRow.get (buildInvoiceData first g inv ym now_str).fields "invoice_number"
      = some (Val.s inv) := by
  simp [buildInvoiceData, PyRow.get_append, PyRow.get_ite, PyRow.get_cons,
    PyRow.get_nil, Option.orElse]

/-- The per-group loop emits exactly one invoice per group. -/
theorem processGroups_length (now_str : String) (v : Int)
    (gs : List (GroupKey × List PyRow)) :
    (processGroups now_str v gs).length = gs.length := by
  induction gs generalizing v with
  | nil => rfl
  | cons g rest ih =>
    rcases g with ⟨k, rows⟩
    simp [processGroups, ih]

/-- The numbers stored in the emitted records are the consecutive
integers `v, v+1, ...`, formatted, in emission order. -/
theorem processGroups_numbers (now_str : String) :
    ∀ (gs : List (GroupKey × List PyRow)) (v : Int), (∀ g ∈ gs, g.2 ≠ []) →
      (processGroups now_str v gs).map
          (fun p => p.2.bind (fun d => PyRow.get d.fields "invoice_number"))
        = (List.range gs.length).map
            (fun i : Nat => some (Val.s (formatInvoiceNumber (v + (i : Int))))) := by
  intro gs
  induction gs with
  | nil => intro v h; rfl
  | cons g rest ih =>
    intro v h
    rcases g with ⟨k, rows⟩
    rcases hr : rows with _ | ⟨first, rtail⟩
    · exact absurd hr (h _ (List.mem_cons_self _ _))
    · simp only [processGroups, List.map_cons, List.length_cons]
      rw [List.range_succ_eq_map]
      simp only [List.map_cons, List.map_map]
      congr 1
      · simp [transform_group_to_invoice_data, fields_get_invoice_number]
      · rw [ih (v + 1) (fun g hg => h g (List.mem_cons_of_mem _ hg))]
        refine List.map_congr_left ?_
        intro i _
        simp only [Function.comp]
        congr 2
        push_cast
        ring_nf

/-- A run that emitted at least one invoice read the CSV, grouped it,
read the counter, processed the (filtered) groups from the counter value,
and wrote back the counter value plus the group count. -/
theorem run_success_shape (cf : Option String) (csv : Option CsvFile)
    (mf : Option String) (now_str : String)
    (hne : (generate_invoices_from_csv cf csv mf now_str).invoices ≠ []) :
    ∃ (df : List PyRow) (gs0 : List (GroupKey × List PyRow)) (v : Int),
      read_invoice csv = Except.ok df
      ∧ group_by_patient_month df = Except.ok gs0
      ∧ get_next_invoice_number cf = Except.ok v
      ∧ generate_invoices_from_csv cf csv mf now_str
          = ⟨some (toString (v + (monthFilteredGroups mf gs0).length)), true,
             processGroups now_str v (monthFilteredGroups mf gs0), none⟩ := by
  cases hread : read_invoice csv with
  | error e =>
    exfalso
    apply hne
    simp [generate_invoices_from_csv, hread]
  | ok df =>
    cases hgrp : group_by_patient_month df with
    | error e =>
      exfalso
      apply hne
      simp [generate_invoices_from_csv, hread, hgrp]
    | ok gs0 =>
      by_cases hif : (monthFilterTruthy mf
          && (monthFilteredGroups mf gs0).isEmpty) = true
      · exfalso
        apply hne
        simp [generate_invoices_from_csv, hread, hgrp, hif]
      · cases hnext : get_next_invoice_number cf with
        | error e =>
          exfalso
          apply hne
          simp [generate_invoices_from_csv, hread, hgrp, hif, hnext]
        | ok v =>
          refine ⟨df, gs0, v, rfl, hgrp, rfl, ?_⟩
          simp [generate_invoices_from_csv, hread, hgrp, hif, hnext]

/-- C1: in any run that emits `n ≥ 1` invoices starting from persisted
counter value `v`, the invoice numbers assigned in iteration order are
exactly `v, v+1, ..., v+n-1`, each formatted as `INV-` followed by the
zero-padded (width 4) number, and `v+n` is persisted to the counter store
exactly once, after all groups are processed. -/
theorem C1_sequential_numbering (cf : Option String) (csv : Option CsvFile)
    (mf : Option String) (now_str : String) (v : Int)
    (hv : get_next_invoice_number cf = Except.ok v)
    (hne : (generate_invoices_from_csv cf csv mf now_str).invoices ≠ []) :
    (generate_invoices_from_csv cf csv mf now_str).invoices.map
        (fun p => p.2.bind (fun d => PyRow.get d.fields "invoice_number"))
      = (List.range (generate_invoices_from_csv cf csv mf now_str).invoices.length).map
          (fun i : Nat => some (Val.s (formatInvoiceNumber (v + (i : Int)))))
    ∧ (generate_invoices_from_csv cf csv mf now_str).counterFile
        = some (toString (v
            + ((generate_invoices_from_csv cf csv mf now_str).invoices.length : Int)))
    ∧ (generate_invoices_from_csv cf csv mf now_str).counterWritten = true := by
  obtain ⟨df, gs0, v', hread, hgrp, hnext, hrun⟩ :=
    run_success_shape cf csv mf now_str hne
  have hvv : v' = v := by
    rw [hnext] at hv
    injection hv
  subst hvv
  have hgne : ∀ g ∈ monthFilteredGroups mf gs0, g.2 ≠ [] := by
    intro g hg
    have hg0 : g ∈ gs0 := by
      unfold monthFilteredGroups at hg
      split at hg
      · exact List.mem_of_mem_filter hg
      · exact hg
    exact (group_by_group_rows df gs0 hgrp g hg0).1
  rw [hrun]
  dsimp only
  rw [processGroups_length]
  exact ⟨processGroups_numbers now_str _ v' hgne, rfl, rfl⟩

/-- C1 witness: a counter file containing `7` and a three-group run:
numbers INV-0007, INV-0008, INV-0009, and `10` is persisted. -/
theorem C1_witness :
    get_next_invoice_number (some "7") = Except.ok 7
      ∧ (generate_invoices_from_csv (some "7") (some csvThree) none
            "05 November 2025").invoices.map
          (fun p => p.2.bind (fun d => PyRow.get d.fields "invoice_number"))
        = [some (Val.s "INV-0007"), some (Val.s "INV-0008"), some (Val.s "INV-0009")]
      ∧ (generate_invoices_from_csv (some "7") (some csvThree) none
            "05 November 2025").counterFile = some "10" := by
  have h := C1_sequential_numbering (some "7") (some csvThree) none
    "05 November 2025" 7 (by decide) (by decide)
  exact ⟨by decide, h.1.trans (by decide), h.2.1.trans (by decide)⟩

/-- C3 (amended): the counter is untouched whenever a (truthy) month
filter is supplied and the run emits zero groups, and whenever the run
terminates with an exception; but a filterless run that emits zero groups
(possible when grouping drops every row over a NaN patient-name key)
still writes the counter — see the counterexample. -/
theorem C3_counter_amended :
    (∀ (cf : Option String) (csv : Option CsvFile) (m : String) (now_str : String),
        m ≠ "" →
        (generate_invoices_from_csv cf csv (some m) now_str).invoices = [] →
        (generate_invoices_from_csv cf csv (some m) now_str).counterWritten = false
          ∧ (generate_invoices_from_csv cf csv (some m) now_str).counterFile = cf)
      ∧ (∀ (cf : Option String) (csv : Option CsvFile) (mf : Option String)
            (now_str : String) (e : PyErr),
          (generate_invoices_from_csv cf csv mf now_str).error = some e →
          (generate_invoices_from_csv cf csv mf now_str).counterWritten = false
            ∧ (generate_invoices_from_csv cf csv mf now_str).counterFile = cf) := by
  constructor
  · intro cf csv m now_str hm hinv
    cases hread : read_invoice csv with
    | error e => simp [generate_invoices_from_csv, hread]
    | ok df =>
      cases hgrp : group_by_patient_month df with
      | error e => simp [generate_invoices_from_csv, hread, hgrp]
      | ok gs0 =>
        by_cases hif : (monthFilterTruthy (some m)
            && (monthFilteredGroups (some m) gs0).isEmpty) = true
        · simp [generate_invoices_from_csv, hread, hgrp, hif]
        · cases hnext : get_next_invoice_number cf with
          | error e => simp [generate_invoices_from_csv, hread, hgrp, hif, hnext]
          | ok v =>
            exfalso
            have hiv : (generate_invoices_from_csv cf csv (some m) now_str).invoices
                = processGroups now_str v (monthFilteredGroups (some m) gs0) := by
              simp [generate_invoices_from_csv, hread, hgrp, hif, hnext]
            rw [hiv] at hinv
            have hlen := processGroups_length now_str v (monthFilteredGroups (some m) gs0)
            rw [hinv] at hlen
            have hempty : (monthFilteredGroups (some m) gs0).isEmpty = true := by
              rw [List.isEmpty_iff]
              exact List.length_eq_zero.mp hlen.symm
            have htruthy : monthFilterTruthy (some m) = true := by
              simp [monthFilterTruthy, hm]
            rw [htruthy, hempty] at hif
            exact hif rfl
  · intro cf csv mf now_str e herr
    cases hread : read_invoice csv with
    | error e2 => simp [generate_invoices_from_csv, hread]
    | ok df =>
      cases hgrp : group_by_patient_month df with
      | error e2 => simp [generate_invoices_from_csv, hread, hgrp]
      | ok gs0 =>
        by_cases hif : (monthFilterTruthy mf
            && (monthFilteredGroups mf gs0).isEmpty) = true
        · exfalso
          revert herr
          simp [generate_invoices_from_csv, hread, hgrp, hif]
        · cases hnext : get_next_invoice_number cf with
          | error e2 => simp [generate_invoices_from_csv, hread, hgrp, hif, hnext]
          | ok v =>
            exfalso
            revert herr
            simp [generate_invoices_from_csv, hread, hgrp, hif, hnext]

/-- C3 counterexample: a filterless run over a CSV whose only row has an
empty patient name emits zero invoices yet still writes the counter file,
creating it with content `1` although it did not exist. -/
theorem C3_counterexample :
    (generate_invoices_from_csv none (some csvNoName) none "d").invoices = []
      ∧ (generate_invoices_from_csv none (some csvNoName) none "d").counterWritten = true
      ∧ (generate_invoices_from_csv none (some csvNoName) none "d").counterFile
          = some "1" := by
  decide

/-- C3 witness: with a month filter that matches nothing, the run emits
nothing and the counter file keeps its exact previous state. -/
theorem C3_witness :
    (generate_invoices_from_csv (some "7") (some csvThree) (some "2099-01") "d").invoices = []
      ∧ (generate_invoices_from_csv (some "7") (some csvThree) (some "2099-01") "d").counterWritten = false
      ∧ (generate_invoices_from_csv (some "7") (some csvThree) (some "2099-01") "d").counterFile
          = some "7" := by
  have h := C3_counter_amended.1 (some "7") (some csvThree) "2099-01" "d"
    (by decide) (by decide)
  exact ⟨by decide, h.1, h.2⟩

/-- Reading a row types each cell by its own column: looking up a header
column in the read row returns that row's cell at the column's position,
typed by `cellOf`. -/
theorem read_row_lookup :
    ∀ (hdr : List String) (cells : List String) (col : String) (j : Nat) (raw : String),
      hdr.Nodup → hdr[j]? = some col → cells[j]? = some raw →
      PyRow.get ((hdr.zip cells).map (fun p => (p.1, cellOf p.1 p.2))) col
        = some (cellOf col raw) := by
  intro hdr
  induction hdr with
  | nil => intro cells col j raw _ hj; simp at hj
  | cons c hs ih =>
    intro cells col j raw hnd hj hc
    cases cells with
    | nil => simp at hc
    | cons x xs =>
      cases j with
      | zero =>
        simp only [List.getElem?_cons_zero, Option.some.injEq] at hj hc
        subst hj
        subst hc
        simp [List.zip_cons_cons, PyRow.get_cons]
      | succ j =>
        simp only [List.getElem?_cons_succ] at hj hc
        have hcol : col ∈ hs := List.getElem?_mem hj
        have hne : c ≠ col := by
          intro he
          subst he
          exact (List.nodup_cons.mp hnd).1 hcol
        rw [List.zip_cons_cons, List.map_cons, PyRow.get_cons, if_neg hne]
        exact ih xs col j raw (List.nodup_cons.mp hnd).2 hj hc

/-- C4 (amended): `read_invoice` fails with FileNotFoundError exactly
when the path does not exist; when the file exists it succeeds with the
rows in file order regardless of which columns are present — no schema
validation happens at read time — and every nonempty cell of a
`dtype_spec` column is kept as raw text. -/
theorem C4_read_amended (f : CsvFile) :
    read_invoice none = Except.error PyErr.fileNotFoundError
      ∧ (read_invoice (some f)).isOk = true
      ∧ (∀ df : List PyRow, read_invoice (some f) = Except.ok df → df.length = f.rows.length)
      ∧ (∀ (df : List PyRow) (i j : Nat) (row : List String) (col raw : String),
          read_invoice (some f) = Except.ok df →
          f.header.Nodup → f.rows[i]? = some row → f.header[j]? = some col →
          col ∈ dtype_spec → row[j]? = some raw → raw ≠ "" →
          df[i]?.bind (fun r => PyRow.get r col) = some (Val.s raw)) := by
  refine ⟨rfl, rfl, ?_, ?_⟩
  · intro df h
    injection h with h
    rw [← h, List.length_map]
  · intro df i j row col raw h hnd hrow hcol hdt hraw hne
    injection h with h
    rw [← h, List.getElem?_map, hrow]
    simp only [Option.map_some', Option.some_bind]
    rw [read_row_lookup f.header row col j raw hnd hcol hraw]
    unfold cellOf
    rw [if_neg hne, if_pos hdt]

/-- C4 counterexample: a CSV missing the required `Date` column (and
most others) is read successfully — no SchemaError is raised. -/
theorem C4_counterexample :
    (read_invoice (some csvNoDate)).isOk = true := by
  decide

/-- C4 witness: a two-column file with `P. Code` cell `007`: the read
succeeds and the cell survives as the raw text `"007"`. -/
theorem C4_witness :
    ("P. Code" ∈ dtype_spec)
      ∧ read_invoice (some ⟨["Date", "P. Code"], [["x", "007"]]⟩)
          = Except.ok [[("Date", Val.s "x"), ("P. Code", Val.s "007")]]
      ∧ ([[("Date", Val.s "x"), ("P. Code", Val.s "007")]] : List PyRow)[0]?.bind
          (fun r => PyRow.get r "P. Code") = some (Val.s "007") := by
  refine ⟨by decide, by decide, ?_⟩
  exact (C4_read_amended ⟨["Date", "P. Code"], [["x", "007"]]⟩).2.2.2
    [[("Date", Val.s "x"), ("P. Code", Val.s "007")]] 0 1
    ["x", "007"] "P. Code" "007" (by decide) (by decide) (by decide) (by decide)
    (by decide) (by decide) (by decide)

/-- C6: the record contains the medical-aid fields iff the first row's
medical-aid name is present (not NaN); when present both the name and the
number are copied verbatim from the first row — the number without any
presence check of its own — and when absent neither key is in the
record. -/
theorem C6_medical_aid_block (first : PyRow) (rest : List PyRow) (inv : String)
    (ym : YearMonth) (now_str : String) :
    transform_group_to_invoice_data (first :: rest) inv ym now_str
        = some (buildInvoiceData first (first :: rest) inv ym now_str)
      ∧ (("medical_aid_name"
            ∈ (buildInvoiceData first (first :: rest) inv ym now_str).fields.map Prod.fst)
          ↔ pd_notna (PyRow.getD first "Medical aid name") = true)
      ∧ (("medical_aid_number"
            ∈ (buildInvoiceData first (first :: rest) inv ym now_str).fields.map Prod.fst)
          ↔ pd_notna (PyRow.getD first "Medical aid name") = true)
      ∧ PyRow.get (buildInvoiceData first (first :: rest) inv ym now_str).fields
            "medical_aid_name"
          = (if pd_notna (PyRow.getD first "Medical aid name") = true
             then some (PyRow.getD first "Medical aid name") else none)
      ∧ PyRow.get (buildInvoiceData first (first :: rest) inv ym now_str).fields
            "medical_aid_number"
          = (if pd_notna (PyRow.getD first "Medical aid name") = true
             then some (PyRow.getD first "Medical aid number") else none) := by
  refine ⟨rfl, ?_⟩
  by_cases hA : pd_notna (PyRow.getD first "Medical aid name") = true <;>
    by_cases hB : pd_notna (PyRow.getD first "Next of kin name") = true <;>
    by_cases hBe : pd_notnaOpt (PyRow.get first "Next of kin email") = true <;>
    by_cases hC : pd_notna (PyRow.getD first "Second next of kin name") = true <;>
    by_cases hCe : pd_notnaOpt (PyRow.get first "Second next of kin email") = true <;>
    simp [buildInvoiceData, hA, hB, hBe, hC, hCe, PyRow.get_append, PyRow.get_cons,
      PyRow.get_nil, Option.orElse]

/-- C7: the record's `line_items` has exactly one entry per row of the
group, in row order; each entry is the row's `Date` cell exactly as in
the source, the procedure code or `""` when absent, and the diagnosis
code or `""` when absent. -/
theorem C7_line_items (first : PyRow) (rest : List PyRow) (inv : String)
    (ym : YearMonth) (now_str : String) (i : Nat) :
    transform_group_to_invoice_data (first :: rest) inv ym now_str
        = some (buildInvoiceData first (first :: rest) inv ym now_str)
      ∧ (buildInvoiceData first (first :: rest) inv ym now_str).line_items.length
          = (first :: rest).length
      ∧ (buildInvoiceData first (first :: rest) inv ym now_str).line_items[i]?
          = ((first :: rest)[i]?).map (fun row =>
              { date := PyRow.getD row "Date"
              , p_code := if pd_notna (PyRow.getD row "P. Code") = true
                          then PyRow.getD row "P. Code" else Val.s ""
              , icd_code := if pd_notna (PyRow.getD row "ICD Code") = true
                            then PyRow.getD row "ICD Code" else Val.s "" }) := by
  refine ⟨rfl, ?_, ?_⟩
  · simp [buildInvoiceData]
  · show ((first :: rest).map lineItemOf)[i]? = _
    rw [List.getElem?_map]
    rfl

/-- C10: in every built record, a next-of-kin email key (primary or
secondary) is present only when the corresponding name key is, a
next-of-kin cellphone key is present iff the corresponding name key is,
and an email whose name cell is NaN is silently dropped. -/
theorem C10_next_of_kin_invariant (first : PyRow) (rest : List PyRow) (inv : String)
    (ym : YearMonth) (now_str : String) :
    (("next_of_kin_email"
          ∈ (buildInvoiceData first (first :: rest) inv ym now_str).fields.map Prod.fst)
        → ("next_of_kin_name"
            ∈ (buildInvoiceData first (first :: rest) inv ym now_str).fields.map Prod.fst))
      ∧ (("next_of_kin_cell"
            ∈ (buildInvoiceData first (first :: rest) inv ym now_str).fields.map Prod.fst)
          ↔ ("next_of_kin_name"
              ∈ (buildInvoiceData first (first :: rest) inv ym now_str).fields.map Prod.fst))
      ∧ (("second_next_of_kin_email"
            ∈ (buildInvoiceData first (first :: rest) inv ym now_str).fields.map Prod.fst)
          → ("second_next_of_kin_name"
              ∈ (buildInvoiceData first (first :: rest) inv ym now_str).fields.map Prod.fst))
      ∧ (("second_next_of_kin_cell"
            ∈ (buildInvoiceData first (first :: rest) inv ym now_str).fields.map Prod.fst)
          ↔ ("second_next_of_kin_name"
              ∈ (buildInvoiceData first (first :: rest) inv ym now_str).fields.map Prod.fst))
      ∧ (pd_notnaOpt (PyRow.get first "Next of kin email") = true →
          pd_notna (PyRow.getD first "Next of kin name") = false →
          ("next_of_kin_email"
            ∉ (buildInvoiceData first (first :: rest) inv ym now_str).fields.map Prod.fst))
      ∧ (pd_notnaOpt (PyRow.get first "Second next of kin email") = true →
          pd_notna (PyRow.getD first "Second next of kin name") = false →
          ("second_next_of_kin_email"
            ∉ (buildInvoiceData first (first :: rest) inv ym now_str).fields.map Prod.fst)) := by
  by_cases hA : pd_notna (PyRow.getD first "Medical aid name") = true <;>
    by_cases hB : pd_notna (PyRow.getD first "Next of kin name") = true <;>
    by_cases hBe : pd_notnaOpt (PyRow.get first "Next of kin email") = true <;>
    by_cases hC : pd_notna (PyRow.getD first "Second next of kin name") = true <;>
    by_cases hCe : pd_notnaOpt (PyRow.get first "Second next of kin email") = true <;>
    simp [buildInvoiceData, hA, hB, hBe, hC, hCe]

/-- C10 witness: a row with a next-of-kin email but a NaN next-of-kin
name yields a record without the email key. -/
theorem C10_witness :
    pd_notnaOpt (PyRow.get rowMedNoKin "Next of kin email") = true
      ∧ pd_notna (PyRow.getD rowMedNoKin "Next of kin name") = false
      ∧ ("next_of_kin_email"
          ∉ (buildInvoiceData rowMedNoKin [rowMedNoKin] "INV-0001" ⟨2025, 11⟩
              "05 November 2025").fields.map Prod.fst) :=
  ⟨by decide, by decide,
   (C10_next_of_kin_invariant rowMedNoKin [] "INV-0001" ⟨2025, 11⟩
       "05 November 2025").2.2.2.2.1 (by decide) (by decide)⟩

/-- C9 witness: idempotence and the output alphabet at a concrete
string. -/
theorem C9_witness :
    sanitize_filename (sanitize_filename "a b/c\\d") = sanitize_filename "a b/c\\d"
      ∧ ¬('_' = ' ' ∨ '_' = '/' ∨ '_' = '\\') :=
  ⟨(C9_sanitize_filename_idempotent "a b/c\\d").1,
   (C9_sanitize_filename_idempotent "a b/c\\d").2 '_' (by decide)⟩
